import Mathlib

/-!
Verification of the iostat collectd plugins (`iostat_plugin.py` and
`iostat_collectd_plugin.py`).

A line of subprocess output is modelled as a `List Char`.  Python's
`str.split()` (split on runs of whitespace, dropping empty fields) is
embedded as `pysplit`; truthiness of `line.strip()` is "the line contains
a non-whitespace character" and is embedded as `strip_truthy`.  Python's
1-character `str.replace` is a character map, embedded as `pyreplace`.
Both plugin files contain the identical `get_parameters`; the per-file
row processors are `extract_line_data` (iostat_plugin.py) and
`process_line` (iostat_collectd_plugin.py).
-/

/-- One text line (or token) from the subprocess, as a list of characters. -/
abbrev Line := List Char

/-- Whitespace predicate used by splitting and stripping. -/
def isSpace (c : Char) : Bool := c.isWhitespace

/-- Helper for `pysplit`: walks the characters, accumulating the current
(reversed) token in `acc`; a whitespace character flushes the token. -/
def splitAux : List Char → List Char → List Line
  | [], [] => []
  | [], acc => [acc.reverse]
  | c :: rest, acc =>
    if isSpace c then
      match acc with
      | [] => splitAux rest []
      | a :: as => (a :: as).reverse :: splitAux rest []
    else splitAux rest (c :: acc)

/-- Python `line.split()`: split on runs of whitespace, no empty fields. -/
def pysplit (cs : Line) : List Line := splitAux cs []

/-- Truthiness of Python `line.strip()`: the line has a non-whitespace
character. -/
def strip_truthy (cs : Line) : Bool := cs.any (fun c => !(isSpace c))

/-- Python `part.replace(old, new)` for 1-character arguments: replace
every occurrence of the character `old` with `new`. -/
def pyreplace (cs : Line) (old new : Char) : List Char :=
  cs.map (fun c => if c = old then new else c)

/-- The body of `get_parameters`'s inner loop over the three characters
slash, dash and percent, unrolled: for each of them, if it occurs in the
token, replace it with an underscore. -/
def sanitizePart (part : Line) : Line :=
  let p1 := if part.contains '/' then pyreplace part '/' '_' else part
  let p2 := if p1.contains '-' then pyreplace p1 '-' '_' else p1
  if p2.contains '%' then pyreplace p2 '%' '_' else p2

/-- The CPU-table header marker `avg-cpu:`. -/
def avgCpuTok : Line := "avg-cpu:".toList

/-- The device-table header marker `Device:`. -/
def deviceTok : Line := "Device:".toList

/-- `get_parameters(line)` (identical in both plugin files): split the
line; if the first token is a recognized marker, return it together with
the remaining tokens sanitized; otherwise `(None, [])`. -/
def get_parameters (line : Line) : Option Line × List Line :=
  match pysplit line with
  | [] => (none, [])
  | p0 :: rest =>
    if p0 = avgCpuTok ∨ p0 = deviceTok then (some p0, rest.map sanitizePart)
    else (none, [])

/-- One observation extracted from a data row (`iostat_plugin.py`'s
dict `{'device': .., 'param': .., 'value': ..}`). -/
structure Datum where
  device : Line
  param : Line
  value : Line
deriving DecidableEq, Repr

/-- The fixed entity used for CPU-shaped rows. -/
def cpuTok : Line := "cpu".toList

/-- `extract_line_data(line, params)` from `iostat_plugin.py`: on a
non-blank line, a row of `len(params)+1` tokens is a device row (first
token the device, rest the values) and a row of `len(params)` tokens is a
CPU row (entity `"cpu"`, all tokens values); anything else yields no data.
The source pairs `values[index]` with `params[index]`; both shapes give
`len(values) = len(params)`, so the positional pairing is realized by
`List.zip` (the index-faithful fallible model is `extract_line_data?`,
built on `build_data?`, and `build_data?_eq` proves the agreement). -/
def extract_line_data (line : Line) (params : List Line) : List Datum :=
  if strip_truthy line then
    let parts := pysplit line
    if parts.length = params.length + 1 then
      match parts with
      | [] => []
      | device :: values =>
        (values.zip params).map (fun vp => ⟨device, vp.2, vp.1⟩)
    else if parts.length = params.length then
      (parts.zip params).map (fun vp => ⟨cpuTok, vp.2, vp.1⟩)
    else []
  else []

/-- The character rendered by Python `%s` between the quotes of the
graphite template (an ASCII apostrophe, code 39). -/
def quoteChar : Char := Char.ofNat 39

/-- The newline appended by `transmit_line` (`'%s\n' % line`). -/
def nlChar : Char := Char.ofNat 10

/-- The collectd template of `output_data`:
`PUTVAL {0}/iostat/gauge-{1}/{2} N:{3}` applied to
(hostname, device, param, value). -/
def format_local (hostname : Line) (d : Datum) : Line :=
  "PUTVAL ".toList ++ hostname ++ "/iostat/gauge-".toList ++ d.device
    ++ "/".toList ++ d.param ++ " N:".toList ++ d.value

/-- The graphite template of `output_data`:
`iostat.{1}.{2} {3} host='{0}'` applied to
(hostname, device, param, value). -/
def format_graphite (hostname : Line) (d : Datum) : Line :=
  "iostat.".toList ++ d.device ++ ".".toList ++ d.param ++ " ".toList
    ++ d.value ++ " host=".toList ++ [quoteChar] ++ hostname ++ [quoteChar]

/-- Observable I/O actions of the emission layer: printing a line to
standard output, and the socket operations of `transmit_line`. -/
inductive Event where
  | print (line : Line)
  | connOpen (host : Line) (port : Nat)
  | send (payload : Line)
  | connClose
deriving DecidableEq, Repr

/-- The `--agent` value selecting the graphite template. -/
def graphiteTok : Line := "graphite".toList

/-- The default `--agent` value (collectd). -/
def collectdTok : Line := "collectd".toList

/-- `transmit_line(host, port, line)` from `iostat_plugin.py`: create a
socket, connect, send the line with a trailing newline, close.  One call
performs exactly this sequence; `output_data` calls it once per line. -/
def transmit_line (host : Line) (port : Nat) (line : Line) : List Event :=
  [Event.connOpen host port, Event.send (line ++ [nlChar]), Event.connClose]

/-- `output_data(data, agent, hostname, host, port, emit)` from
`iostat_plugin.py`, as the sequence of I/O events of its `for` loop: for
each datum, format the line with the template selected by `agent`;
transmit it first when `emit` and the agent is graphite; always print it. -/
def output_data (data : List Datum) (agent hostname host : Line) (port : Nat)
    (emit : Bool) : List Event :=
  match data with
  | [] => []
  | d :: rest =>
    let line := if agent = graphiteTok then format_graphite hostname d
                else format_local hostname d
    (if emit ∧ agent = graphiteTok then transmit_line host port line else [])
      ++ Event.print line :: output_data rest agent hostname host port emit

/-- The print template of `process_line` in `iostat_collectd_plugin.py`:
`PUTVAL %s/iostatplugin/gauge-%s/%s N:%s` applied to
(hostname, device, param, value). -/
def putval_plugin_line (hostname device param value : Line) : Line :=
  "PUTVAL ".toList ++ hostname ++ "/iostatplugin/gauge-".toList ++ device
    ++ "/".toList ++ param ++ " N:".toList ++ value

/-- `process_line(line, params, hostname)` from
`iostat_collectd_plugin.py`: same row classification as
`extract_line_data`, but prints each observation directly (note the
`iostatplugin` path segment) and returns the truthiness of `values`. -/
def process_line (line : Line) (params : List Line) (hostname : Line) :
    List Line × Bool :=
  if strip_truthy line then
    let parts := pysplit line
    if parts.length = params.length + 1 then
      match parts with
      | [] => ([], false)
      | device :: values =>
        ((values.zip params).map
            (fun vp => putval_plugin_line hostname device vp.2 vp.1),
          !values.isEmpty)
    else if parts.length = params.length then
      ((parts.zip params).map
          (fun vp => putval_plugin_line hostname cpuTok vp.2 vp.1),
        !parts.isEmpty)
    else ([], false)
  else ([], false)

/-- The driver's persisted state: Python's `io_stats`, which is either
`None` or a list of column names (`[]` included). -/
abbrev DriverState := Option (List Line)

/-- Python truthiness of `io_stats`, the test of `elif io_stats:` in
`main`: `None` and the empty list are falsy. -/
def truthy : DriverState → Bool
  | none => false
  | some ps => !ps.isEmpty

/-- The header-seeking branch of `main`'s loop:
`stat_type, io_stats = get_parameters(line)`, then
`if not ARGS.get_cpu and stat_type == 'avg-cpu:': io_stats = None`. -/
def step_header (getCpu : Bool) (line : Line) : DriverState × List Datum :=
  let tp := get_parameters line
  if getCpu = false ∧ tp.1 = some avgCpuTok then (none, [])
  else (some tp.2, [])

/-- One iteration of `main`'s loop in `iostat_plugin.py` on a non-empty
line: with truthy `io_stats`, extract data; emit it if non-empty, else
reset `io_stats` to `None`; with falsy `io_stats`, seek a header.
Returns the new state and the data passed to `output_data`. -/
def step (getCpu : Bool) (st : DriverState) (line : Line) :
    DriverState × List Datum :=
  if truthy st then
    let data := extract_line_data line (st.getD [])
    if data.isEmpty then (none, []) else (st, data)
  else step_header getCpu line

/-- The driver state after feeding a list of lines. -/
def run_state (getCpu : Bool) : DriverState → List Line → DriverState
  | st, [] => st
  | st, l :: ls => run_state getCpu (step getCpu st l).1 ls

/-- The I/O events of `main`'s loop over a list of lines: each line's
extracted data is rendered by `output_data` (`main` skips the call when
the data is empty; `output_data` of `[]` is `[]`, so the trace is the
same). -/
def main_outputs (getCpu : Bool) (agent hostname host : Line) (port : Nat)
    (emit : Bool) : DriverState → List Line → List Event
  | _, [] => []
  | st, l :: ls =>
    output_data (step getCpu st l).2 agent hostname host port emit
      ++ main_outputs getCpu agent hostname host port emit (step getCpu st l).1 ls

/-- The value `main` returns when the stream of lines is exhausted.
`return_code` starts at `0`, but the loop's only exit is
`if not line: return_code = 1; do_it = False` — `readline` returning an
empty string at end of stream — so exhaustion always returns `1`.  The
signal handler only calls `process.terminate()` (which surfaces as end of
stream) and never touches `return_code`. -/
def main_return_code (getCpu : Bool) : DriverState → List Line → Nat
  | _, [] => 1
  | st, l :: ls => main_return_code getCpu (step getCpu st l).1 ls

/-- Fallible model of the `params[index]` accesses in the
`for index, value in enumerate(values)` loop shared by
`extract_line_data` and `process_line`: `none` models an `IndexError`. -/
def build_data? (device : Line) (params : List Line) :
    Nat → List Line → Option (List Datum)
  | _, [] => some []
  | i, v :: vs =>
    match params[i]? with
    | none => none
    | some p =>
      (build_data? device params (i + 1) vs).map
        (fun rest => ⟨device, p, v⟩ :: rest)

/-- `extract_line_data` with the source's index-based pairing modelled
fallibly: `none` models an uncaught exception. -/
def extract_line_data? (line : Line) (params : List Line) :
    Option (List Datum) :=
  if strip_truthy line then
    let parts := pysplit line
    if parts.length = params.length + 1 then
      match parts with
      | [] => some []
      | device :: values => build_data? device params 0 values
    else if parts.length = params.length then
      build_data? cpuTok params 0 parts
    else some []
  else some []

/-- `get_parameters` with the `parts[0]` access modelled fallibly
(the source guards it by the truthiness of `parts`): `none` models an
uncaught exception. -/
def get_parameters? (line : Line) : Option (Option Line × List Line) :=
  let parts := pysplit line
  if parts.isEmpty then some (none, [])
  else
    match parts[0]? with
    | none => none
    | some p0 =>
      if p0 = avgCpuTok ∨ p0 = deviceTok then
        some (some p0, (parts.drop 1).map sanitizePart)
      else some (none, [])

/-- Spec-side sanitization of one character (\"characters slash, dash,
percent replaced with underscore\", otherwise unchanged), used to state
that `sanitizePart` is exactly this map. -/
def saniChar (c : Char) : Char :=
  if c = '/' ∨ c = '-' ∨ c = '%' then '_' else c

/-- Scenario fixture: the device header `Device:  r/s  w/s`. -/
def hdrLine : Line := "Device:  r/s  w/s".toList

/-- Scenario fixture: the device row `sda  1.00  2.00`. -/
def rowLine : Line := "sda  1.00  2.00".toList

/-- Scenario fixture: the reporting hostname `host1`. -/
def host1 : Line := "host1".toList

/-- Scenario fixture: the sanitized schema of `hdrLine`. -/
def schemaRW : List Line := ["r_s".toList, "w_s".toList]

/-- Fixture: a device header whose tokens exercise slash, dash and
percent sanitization. -/
def hdr2 : Line := "Device:  rrqm/s  await  %util  dm-0".toList

/-- Fixture: the sanitized schema of `hdr2`. -/
def schema2 : List Line :=
  ["rrqm_s".toList, "await".toList, "_util".toList, "dm_0".toList]

/-- Fixture: a CPU-table header. -/
def cpuHdrLine : Line := "avg-cpu:  %user  %nice".toList

/-- Fixture: a CPU-shaped data row for the two-column CPU schema. -/
def cpuRowLine : Line := "3.12  0.00".toList

/-- Fixture: a one-token row, mismatched against `schemaRW`. -/
def shortRow : Line := "sda".toList

/-- Fixture: expected first local output line of the device scenario. -/
def localLine1 : Line := "PUTVAL host1/iostat/gauge-sda/r_s N:1.00".toList

/-- Fixture: expected second local output line of the device scenario. -/
def localLine2 : Line := "PUTVAL host1/iostat/gauge-sda/w_s N:2.00".toList

/-- Fixture: what `process_line` of `iostat_collectd_plugin.py` actually
prints first in the device scenario. -/
def pluginLine1 : Line :=
  "PUTVAL host1/iostatplugin/gauge-sda/r_s N:1.00".toList

/-- Fixture: what `process_line` of `iostat_collectd_plugin.py` actually
prints second in the device scenario. -/
def pluginLine2 : Line :=
  "PUTVAL host1/iostatplugin/gauge-sda/w_s N:2.00".toList

/-- Fixture: a header line that is only the marker token, no columns. -/
def markerOnly : Line := "Device:".toList

/-- Fixture: a device row whose device token contains a dash. -/
def dmRow : Line := "dm-0  3.50".toList

/-- Fixture: a one-column schema for `dmRow`. -/
def schemaR : List Line := ["r_s".toList]

example : pysplit ("Device:  r/s  w/s".toList) =
    ["Device:".toList, "r/s".toList, "w/s".toList] := by decide

example : get_parameters ("Device:  r/s  w/s".toList) =
    (some deviceTok, ["r_s".toList, "w_s".toList]) := by decide

example : extract_line_data ("sda  1.00  2.00".toList)
      ["r_s".toList, "w_s".toList] =
    [⟨"sda".toList, "r_s".toList, "1.00".toList⟩,
     ⟨"sda".toList, "w_s".toList, "2.00".toList⟩] := by decide

example : get_parameters ("avg-cpu:  %user   %nice %system".toList) =
    (some avgCpuTok,
     ["_user".toList, "_nice".toList, "_system".toList]) := by decide

/-- A line with no non-whitespace character splits into no tokens. -/
theorem pysplit_nil_of_not_strip (cs : Line) (h : strip_truthy cs = false) :
    pysplit cs = [] := by
  induction cs with
  | nil => rfl
  | cons c rest ih =>
    rw [strip_truthy, List.any_cons, Bool.or_eq_false_iff] at h
    obtain ⟨h1, h2⟩ := h
    have hc : isSpace c = true := by simpa using h1
    show splitAux (c :: rest) [] = []
    rw [splitAux, if_pos hc]
    exact ih h2

/-- A line that splits into at least one token has a non-whitespace
character. -/
theorem strip_of_pysplit_ne_nil (cs : Line) (h : pysplit cs ≠ []) :
    strip_truthy cs = true := by
  cases hst : strip_truthy cs with
  | false => exact absurd (pysplit_nil_of_not_strip cs hst) h
  | true => rfl

/-- Device-row characterization of `extract_line_data`: with one more
token than columns, the first token is the device and the remaining
tokens pair positionally with the columns. -/
theorem extract_device_eq (params : List Line) (line d : Line)
    (vals : List Line) (hsplit : pysplit line = d :: vals)
    (hlen : vals.length = params.length) :
    extract_line_data line params =
      (vals.zip params).map (fun vp => ⟨d, vp.2, vp.1⟩) := by
  have hst : strip_truthy line = true :=
    strip_of_pysplit_ne_nil line (by rw [hsplit]; exact List.cons_ne_nil d vals)
  rw [extract_line_data, if_pos hst]
  simp only [hsplit, List.length_cons, hlen]
  simp

/-- CPU-row characterization of `extract_line_data`: with exactly as many
tokens as columns, the entity is `"cpu"` and all tokens pair positionally
with the columns. -/
theorem extract_cpu_eq (params : List Line) (line : Line)
    (hlen : (pysplit line).length = params.length) :
    extract_line_data line params =
      ((pysplit line).zip params).map (fun vp => ⟨cpuTok, vp.2, vp.1⟩) := by
  cases hst : strip_truthy line with
  | false =>
    rw [extract_line_data, if_neg (by simp [hst])]
    rw [pysplit_nil_of_not_strip line hst]
    simp
  | true =>
    rw [extract_line_data, if_pos hst]
    simp only [hlen]
    rw [if_neg (by omega)]
    simp

/-- Reset characterization of `extract_line_data`: a blank line, or a
token count that is neither `k` nor `k + 1`, yields no data. -/
theorem extract_eq_nil (params : List Line) (line : Line)
    (h : strip_truthy line = false ∨
      ((pysplit line).length ≠ params.length ∧
       (pysplit line).length ≠ params.length + 1)) :
    extract_line_data line params = [] := by
  rcases h with h | ⟨h1, h2⟩
  · rw [extract_line_data, if_neg (by simp [h])]
  · cases hst : strip_truthy line with
    | false => rw [extract_line_data, if_neg (by simp [hst])]
    | true =>
      rw [extract_line_data, if_pos hst, if_neg h2, if_neg h1]

/-- C1: for a schema with `k` columns, a line of exactly `k + 1` tokens
yields `k` observations whose entity is the first token, with
`metric i = columns i` and `value i = tokens (i + 1)`; a line of exactly
`k` tokens yields `k` observations with entity `"cpu"`, `metric i =
columns i` and `value i = tokens i`; values are the original text
tokens. -/
theorem extract_line_data_alignment (params : List Line) (line : Line) :
    ((pysplit line).length = params.length + 1 →
      (extract_line_data line params).length = params.length ∧
      ∀ i, i < params.length →
        (extract_line_data line params)[i]? =
          some ⟨((pysplit line)[0]?).getD [], (params[i]?).getD [],
                ((pysplit line)[i + 1]?).getD []⟩) ∧
    ((pysplit line).length = params.length →
      (extract_line_data line params).length = params.length ∧
      ∀ i, i < params.length →
        (extract_line_data line params)[i]? =
          some ⟨cpuTok, (params[i]?).getD [],
                ((pysplit line)[i]?).getD []⟩) := by
  constructor
  · intro hlen
    obtain ⟨d, vals, hsplit⟩ : ∃ d vals, pysplit line = d :: vals := by
      cases hp : pysplit line with
      | nil => rw [hp] at hlen; simp at hlen
      | cons d vals => exact ⟨d, vals, rfl⟩
    have hv : vals.length = params.length := by
      rw [hsplit] at hlen; simpa using hlen
    rw [extract_device_eq params line d vals hsplit hv]
    constructor
    · simp [List.length_zip, hv]
    · intro i hi
      have hiv : i < vals.length := by omega
      have hzip : (vals.zip params)[i]? = some (vals[i], params[i]) := by
        rw [List.getElem?_zip_eq_some]
        exact ⟨List.getElem?_eq_getElem hiv, List.getElem?_eq_getElem hi⟩
      rw [List.getElem?_map, hzip, hsplit]
      simp [List.getElem?_eq_getElem hiv, List.getElem?_eq_getElem hi]
  · intro hlen
    rw [extract_cpu_eq params line hlen]
    constructor
    · simp [List.length_zip, hlen]
    · intro i hi
      have hiv : i < (pysplit line).length := by omega
      have hzip : ((pysplit line).zip params)[i]? =
          some ((pysplit line)[i], params[i]) := by
        rw [List.getElem?_zip_eq_some]
        exact ⟨List.getElem?_eq_getElem hiv, List.getElem?_eq_getElem hi⟩
      rw [List.getElem?_map, hzip]
      simp [List.getElem?_eq_getElem hiv, List.getElem?_eq_getElem hi]

/-- Witness for C1: the row `sda  1.00  2.00` against the two-column
schema from `Device:  r/s  w/s`. -/
theorem extract_line_data_alignment_witness :
    (extract_line_data rowLine schemaRW)[0]? =
      some ⟨((pysplit rowLine)[0]?).getD [], (schemaRW[0]?).getD [],
            ((pysplit rowLine)[1]?).getD []⟩ :=
  ((extract_line_data_alignment schemaRW rowLine).1 (by decide)).2 0
    (by decide)

/-- Replacing a character that does not occur is the identity. -/
theorem pyreplace_of_not_contains (cs : Line) (o n : Char)
    (h : cs.contains o = false) : pyreplace cs o n = cs := by
  induction cs with
  | nil => rfl
  | cons c rest ih =>
    rw [List.contains_cons, Bool.or_eq_false_iff] at h
    obtain ⟨h1, h2⟩ := h
    have hoc : ¬(o = c) := by simpa using h1
    have hco : ¬(c = o) := fun hh => hoc hh.symm
    show (if c = o then n else c) :: pyreplace rest o n = c :: rest
    rw [if_neg hco, ih h2]

/-- The guarded replacement of `get_parameters`'s inner loop equals the
unguarded one. -/
theorem replace_if_contains (cs : Line) (o n : Char) :
    (if cs.contains o then pyreplace cs o n else cs) = pyreplace cs o n := by
  cases h : cs.contains o with
  | false => simp [h, pyreplace_of_not_contains cs o n h]
  | true => simp [h]

/-- The three sequential conditional replacements of `sanitizePart` are
exactly the character map `saniChar`. -/
theorem sanitizePart_eq_map (cs : Line) : cs.map saniChar = sanitizePart cs := by
  rw [sanitizePart]
  simp only [replace_if_contains]
  simp only [pyreplace, List.map_map]
  apply List.map_congr_left
  intro a _
  by_cases h1 : a = '/'
  · subst h1; decide
  · by_cases h2 : a = '-'
    · subst h2; decide
    · by_cases h3 : a = '%'
      · subst h3; decide
      · simp [saniChar, Function.comp, h1, h2, h3]

/-- C4: for every recognized header line the schema columns are exactly
the source tokens with each slash, dash and percent replaced by an
underscore (so pointwise otherwise identical), and no column name
contains any of those three characters. -/
theorem get_parameters_sanitized (line : Line) (t : Line) (ps : List Line)
    (h : get_parameters line = (some t, ps)) :
    ps = ((pysplit line).drop 1).map (fun src => src.map saniChar) ∧
    ∀ name ∈ ps, ∀ c ∈ name, ¬(c = '/' ∨ c = '-' ∨ c = '%') := by
  cases hp : pysplit line with
  | nil => simp [get_parameters, hp] at h
  | cons p0 rest =>
    simp only [get_parameters, hp] at h
    by_cases hrec : p0 = avgCpuTok ∨ p0 = deviceTok
    · rw [if_pos hrec] at h
      have hps : ps = rest.map sanitizePart := by
        have := congrArg Prod.snd h
        simpa using this.symm
      subst hps
      refine ⟨?_, ?_⟩
      · simp only [List.drop_one, List.tail_cons]
        apply List.map_congr_left
        intro src _
        exact (sanitizePart_eq_map src).symm
      · intro name hname c hc
        obtain ⟨src, _, rfl⟩ := List.mem_map.mp hname
        rw [← sanitizePart_eq_map] at hc
        obtain ⟨a, _, rfl⟩ := List.mem_map.mp hc
        rw [saniChar]
        by_cases hb : a = '/' ∨ a = '-' ∨ a = '%'
        · rw [if_pos hb]; decide
        · rw [if_neg hb]; exact hb
    · rw [if_neg hrec] at h
      simp at h

/-- Witness for C4: the header `Device:  rrqm/s  await  %util  dm-0`. -/
theorem get_parameters_sanitized_witness :
    schema2 = ["rrqm_s".toList, "await".toList, "_util".toList,
               "dm_0".toList] ∧
    ¬('_' = '/' ∨ '_' = '-' ∨ '_' = '%') :=
  ⟨((get_parameters_sanitized hdr2 deviceTok schema2 (by decide)).1).trans
      (by decide),
   (get_parameters_sanitized hdr2 deviceTok schema2 (by decide)).2
      ("rrqm_s".toList) (by decide) '_' (by decide)⟩

/-- In the falsy (`AWAITING_HEADER`) state the loop body is the header
seeker. -/
theorem step_none_eq (getCpu : Bool) (l : Line) :
    step getCpu none l = step_header getCpu l := rfl

/-- C3: in `HAVE_SCHEMA` with `k` columns, a blank line or a non-blank
line whose token count is neither `k` nor `k + 1` yields zero
observations and resets `io_stats` to `None` (`AWAITING_HEADER`); a
recognized header with columns fed immediately afterwards is accepted and
installs a new active schema. -/
theorem schema_reset_on_mismatch (getCpu : Bool) (params : List Line)
    (line : Line) (hne : params ≠ [])
    (hbad : strip_truthy line = false ∨
      ((pysplit line).length ≠ params.length ∧
       (pysplit line).length ≠ params.length + 1)) :
    step getCpu (some params) line = (none, []) ∧
    ∀ hline t qs, get_parameters hline = (some t, qs) → qs ≠ [] →
      (getCpu = true ∨ t ≠ avgCpuTok) →
      step getCpu none hline = (some qs, []) ∧ truthy (some qs) = true := by
  have htr : truthy (some params) = true := by
    cases params with
    | nil => exact absurd rfl hne
    | cons a as => rfl
  constructor
  · rw [step, if_pos htr]
    simp only [Option.getD_some]
    rw [extract_eq_nil params line hbad]
    simp
  · intro hline t qs hget hqs hcpu
    have hcond : ¬(getCpu = false ∧
        (get_parameters hline).1 = some avgCpuTok) := by
      rcases hcpu with hg | ht
      · intro hc; rw [hg] at hc; simp at hc
      · intro hc
        rw [hget] at hc
        exact ht (by simpa using hc.2)
    constructor
    · rw [step_none_eq, step_header, if_neg hcond, hget]
    · cases qs with
      | nil => exact absurd rfl hqs
      | cons a as => rfl

/-- Witness for C3: a one-token row resets the two-column schema, and the
device header is accepted right after. -/
theorem schema_reset_on_mismatch_witness :
    step false (some schemaRW) shortRow = (none, []) ∧
    (step false none hdrLine = (some schemaRW, []) ∧
     truthy (some schemaRW) = true) :=
  ⟨(schema_reset_on_mismatch false schemaRW shortRow (by decide)
      (Or.inr ⟨by decide, by decide⟩)).1,
   (schema_reset_on_mismatch false schemaRW shortRow (by decide)
      (Or.inr ⟨by decide, by decide⟩)).2 hdrLine deviceTok schemaRW
      (by decide) (by decide) (Or.inr (by decide))⟩

/-- C5: with CPU tracking disabled, a recognized CPU-table header (first
token `avg-cpu:`) does not install a schema — the driver stays in the
falsy `AWAITING_HEADER` state — every line fed in that state yields zero
observations, and a device header with columns installs a schema again. -/
theorem cpu_optout (hline : Line) (ps : List Line)
    (h : get_parameters hline = (some avgCpuTok, ps)) :
    step false none hline = (none, []) ∧
    (∀ dline : Line, (step false none dline).2 = []) ∧
    (∀ dh qs, get_parameters dh = (some deviceTok, qs) →
      step false none dh = (some qs, [])) := by
  refine ⟨?_, ?_, ?_⟩
  · rw [step_none_eq, step_header, if_pos ⟨rfl, by rw [h]⟩]
  · intro dline
    rw [step_none_eq, step_header]
    split
    · rfl
    · rfl
  · intro dh qs hdh
    have hcond : ¬((false : Bool) = false ∧
        (get_parameters dh).1 = some avgCpuTok) := by
      intro hc
      rw [hdh] at hc
      have : deviceTok = avgCpuTok := by simpa using hc.2
      exact absurd this (by decide)
    rw [step_none_eq, step_header, if_neg hcond, hdh]

/-- Witness for C5: the CPU header is discarded, a CPU-shaped row yields
nothing, and the device header is then accepted. -/
theorem cpu_optout_witness :
    step false none cpuHdrLine = (none, []) ∧
    (step false none cpuRowLine).2 = [] ∧
    step false none hdrLine = (some schemaRW, []) :=
  ⟨(cpu_optout cpuHdrLine ["_user".toList, "_nice".toList] (by decide)).1,
   (cpu_optout cpuHdrLine ["_user".toList, "_nice".toList]
      (by decide)).2.1 cpuRowLine,
   (cpu_optout cpuHdrLine ["_user".toList, "_nice".toList]
      (by decide)).2.2 hdrLine schemaRW (by decide)⟩

/-- C9: a header consisting of only a marker token never puts the driver
into `HAVE_SCHEMA` (the resulting `io_stats` is falsy), every falsy state
behaves exactly as `AWAITING_HEADER` (the next line goes to the header
seeker), and every truthy (`HAVE_SCHEMA`) state the driver reaches
carries a nonempty column list. -/
theorem active_schema_nonempty (getCpu : Bool) (lines : List Line) :
    (∀ hline, (get_parameters hline).2 = [] →
      truthy (step_header getCpu hline).1 = false) ∧
    (∀ st, truthy st = false →
      ∀ l, step getCpu st l = step_header getCpu l) ∧
    (truthy (run_state getCpu none lines) = true →
      (run_state getCpu none lines).getD [] ≠ []) := by
  refine ⟨?_, ?_, ?_⟩
  · intro hline hp
    rw [step_header]
    split
    · rfl
    · show truthy (some (get_parameters hline).2) = false
      rw [hp]
      rfl
  · intro st hst l
    rw [step, if_neg (by rw [hst]; simp)]
  · intro htr
    cases hs : run_state getCpu none lines with
    | none => rw [hs] at htr; simp [truthy] at htr
    | some ps =>
      cases ps with
      | nil => rw [hs] at htr; simp [truthy] at htr
      | cons a as => simp

/-- Witness for C9: the bare `Device:` marker installs nothing, the
resulting falsy state still header-seeks, and the reachable state after
a real header is nonempty. -/
theorem active_schema_nonempty_witness :
    truthy (step_header false markerOnly).1 = false ∧
    step false (some []) rowLine = step_header false rowLine ∧
    (run_state false none [hdrLine]).getD [] ≠ [] :=
  ⟨(active_schema_nonempty false [hdrLine]).1 markerOnly (by decide),
   (active_schema_nonempty false [hdrLine]).2.1 (some []) (by decide) rowLine,
   (active_schema_nonempty false [hdrLine]).2.2 (by decide)⟩

/-- Counterexample to C2 as stated: `process_line` of
`iostat_collectd_plugin.py` (one of the two local-format renderers)
renders the scenario observation with path segment `iostatplugin`, not
`iostat`, so its first printed line differs from the claimed
`PUTVAL host1/iostat/gauge-sda/r_s N:1.00`. -/
theorem process_line_path_counterexample :
    (process_line rowLine schemaRW host1).1 = [pluginLine1, pluginLine2] ∧
    pluginLine1 ≠ localLine1 := by decide

/-- C2 (amended): in `iostat_plugin.py`, the non-graphite agent renders
every observation exactly as
`PUTVAL {hostname}/iostat/gauge-{entity}/{metric} N:{value}` and only
prints it, the device scenario with hostname `host1` prints exactly the
two cited lines; `process_line` of `iostat_collectd_plugin.py` instead
prints with the `iostatplugin` path segment. -/
theorem local_format_scenario :
    (∀ (data : List Datum) (hostname h : Line) (p : Nat) (e : Bool),
      output_data data collectdTok hostname h p e =
        data.map (fun d => Event.print (format_local hostname d))) ∧
    (∀ (hostname : Line) (d : Datum),
      format_local hostname d =
        "PUTVAL ".toList ++ hostname ++ "/iostat/gauge-".toList ++
          d.device ++ "/".toList ++ d.param ++ " N:".toList ++ d.value) ∧
    main_outputs false collectdTok host1 [] 0 false none [hdrLine, rowLine] =
      [Event.print localLine1, Event.print localLine2] ∧
    (process_line rowLine schemaRW host1).1 = [pluginLine1, pluginLine2] := by
  refine ⟨?_, fun hostname d => rfl, by decide, by decide⟩
  intro data hostname h p e
  induction data with
  | nil => rfl
  | cons d rest ih =>
    rw [output_data]
    have hag : ¬(collectdTok = graphiteTok) := by decide
    simp [hag, ih]

/-- C6: with the graphite agent, every observation is printed as
`iostat.{entity}.{metric} {value} host=(quote){hostname}(quote)`
regardless of the emission flag; when emission is enabled each print is
preceded by exactly one connection open, one send of that single line
with a newline, and one connection close — a fresh connection per line,
no reuse, no batching. -/
theorem graphite_output_trace (data : List Datum) (hostname h : Line)
    (p : Nat) (e : Bool) :
    output_data data graphiteTok hostname h p e =
      data.flatMap (fun d =>
        (if e then [Event.connOpen h p,
                    Event.send (format_graphite hostname d ++ [nlChar]),
                    Event.connClose] else [])
          ++ [Event.print (format_graphite hostname d)]) ∧
    ∀ (d : Datum),
      format_graphite hostname d =
        "iostat.".toList ++ d.device ++ ".".toList ++ d.param ++
          " ".toList ++ d.value ++ " host=".toList ++ [quoteChar] ++
          hostname ++ [quoteChar] := by
  constructor
  · induction data with
    | nil => rfl
    | cons d rest ih =>
      rw [output_data, List.flatMap_cons]
      cases e with
      | false => simpa using ih
      | true => simpa [transmit_line] using ih
  · intro d
    rfl

/-- C7 evidence: `main` returns `1` whenever the subprocess stream ends,
for every configuration, driver state and line sequence.  The signal
handler only calls `process.terminate()`, so voluntary termination also
surfaces as end of stream and reaches this same exit; the exit status `0`
the spec promises for voluntary termination is unreachable. -/
theorem main_return_code_always_one (getCpu : Bool) (st : DriverState)
    (lines : List Line) : main_return_code getCpu st lines = 1 := by
  induction lines generalizing st with
  | nil => rfl
  | cons l ls ih =>
    rw [main_return_code]
    exact ih _

/-- The fallible index-based datum builder succeeds and agrees with the
positional zip pairing whenever the values fit inside the schema. -/
theorem build_data?_eq (device : Line) (params : List Line) :
    ∀ (vals : List Line) (i : Nat), i + vals.length ≤ params.length →
      build_data? device params i vals =
        some ((vals.zip (params.drop i)).map
          (fun vp => ⟨device, vp.2, vp.1⟩)) := by
  intro vals
  induction vals with
  | nil => intro i _; rfl
  | cons v vs ih =>
    intro i h
    have hi : i < params.length := by
      simp only [List.length_cons] at h
      omega
    rw [build_data?, List.getElem?_eq_getElem hi,
      ih (i + 1) (by simp only [List.length_cons] at h; omega)]
    rw [List.drop_eq_getElem_cons hi]
    rfl

/-- C8: the fallible models of `get_parameters` and `extract_line_data`
never fail on any input string or schema (every `params[index]` and
`parts[0]` access is in range), they agree with the total embeddings,
and an unrecognized first token is the regular not-a-header result
`(None, [])`, never an error. -/
theorem parsing_never_raises (line : Line) (params : List Line) :
    get_parameters? line = some (get_parameters line) ∧
    extract_line_data? line params = some (extract_line_data line params) ∧
    (∀ p0 rest, pysplit line = p0 :: rest →
      ¬(p0 = avgCpuTok ∨ p0 = deviceTok) →
      get_parameters line = (none, [])) := by
  refine ⟨?_, ?_, ?_⟩
  · cases hp : pysplit line with
    | nil => simp [get_parameters?, get_parameters, hp]
    | cons p0 rest =>
      by_cases hrec : p0 = avgCpuTok ∨ p0 = deviceTok
      · simp [get_parameters?, get_parameters, hp, hrec]
      · simp [get_parameters?, get_parameters, hp, hrec]
  · cases hst : strip_truthy line with
    | false =>
      rw [extract_line_data?, if_neg (by simp [hst]),
        extract_line_data, if_neg (by simp [hst])]
    | true =>
      rw [extract_line_data?, if_pos hst, extract_line_data, if_pos hst]
      by_cases h1 : (pysplit line).length = params.length + 1
      · cases hp : pysplit line with
        | nil => rw [hp] at h1; simp at h1
        | cons d vals =>
          rw [hp] at h1
          have hlen : vals.length = params.length := by simpa using h1
          rw [if_pos h1, if_pos h1]
          show build_data? d params 0 vals = some _
          rw [build_data?_eq d params vals 0 (by omega), List.drop_zero]
      · rw [if_neg h1, if_neg h1]
        by_cases h2 : (pysplit line).length = params.length
        · rw [if_pos h2, if_pos h2]
          rw [build_data?_eq cpuTok params (pysplit line) 0 (by omega),
            List.drop_zero]
        · rw [if_neg h2, if_neg h2]
  · intro p0 rest hp hrec
    simp [get_parameters, hp, hrec]

/-- Witness for C8: the non-header row `sda  1.00  2.00` parses without
error in both models and is a regular not-a-header outcome. -/
theorem parsing_never_raises_witness :
    get_parameters? rowLine = some (get_parameters rowLine) ∧
    extract_line_data? rowLine schemaRW =
      some (extract_line_data rowLine schemaRW) ∧
    get_parameters rowLine = (none, []) :=
  ⟨(parsing_never_raises rowLine schemaRW).1,
   (parsing_never_raises rowLine schemaRW).2.1,
   (parsing_never_raises rowLine schemaRW).2.2 ("sda".toList)
     ["1.00".toList, "2.00".toList] (by decide) (by decide)⟩

/-- C10: in a device row the entity is the first token verbatim — the
slash, dash, percent sanitization applies only to schema column names —
and both wire formats embed the device token unchanged in their entity
segment. -/
theorem entity_verbatim (params : List Line) (line d : Line)
    (vals : List Line) (hsplit : pysplit line = d :: vals)
    (hlen : vals.length = params.length) :
    (∀ datum ∈ extract_line_data line params, datum.device = d) ∧
    (∀ datum ∈ extract_line_data line params, ∀ hostname,
      format_local hostname datum =
        "PUTVAL ".toList ++ hostname ++ "/iostat/gauge-".toList ++ d ++
          "/".toList ++ datum.param ++ " N:".toList ++ datum.value ∧
      format_graphite hostname datum =
        "iostat.".toList ++ d ++ ".".toList ++ datum.param ++ " ".toList ++
          datum.value ++ " host=".toList ++ [quoteChar] ++ hostname ++
          [quoteChar]) := by
  have hdev : ∀ datum ∈ extract_line_data line params, datum.device = d := by
    intro datum hd
    rw [extract_device_eq params line d vals hsplit hlen] at hd
    obtain ⟨vp, _, rfl⟩ := List.mem_map.mp hd
    rfl
  refine ⟨hdev, ?_⟩
  intro datum hd hostname
  have hdd := hdev datum hd
  constructor
  · rw [format_local, hdd]
  · rw [format_graphite, hdd]

/-- Witness for C10: the row `dm-0  3.50` against a one-column schema
keeps the dash in the device token. -/
theorem entity_verbatim_witness :
    (Datum.mk ("dm-0".toList) ("r_s".toList) ("3.50".toList)).device =
      "dm-0".toList :=
  (entity_verbatim schemaR dmRow ("dm-0".toList) ["3.50".toList]
    (by decide) (by decide)).1
    ⟨"dm-0".toList, "r_s".toList, "3.50".toList⟩ (by decide)
